import Mathlib

/-!
Shallow embedding of the connectivity / telemetry / OTA orchestration loop of
the ESP32 PT100 MQTT gateway (`src/src/main.cpp`).

The embedding models one execution of the cooperative `loop()` body as a pure
function from an environment (the values the external collaborators return on
this tick: `millis()`, `WiFi.status()`, `thingsboard.connected()`, the result
of `thingsboard.connect`, and the sensor reading) and the mutable global state
(the two timer marks, the `sendInitialTelemetry` flag, the `mqttConnected`
flag, and `temperatureCelsius`) to the new state plus a trace of the externally
visible actions performed, in order.  `unsigned long` arithmetic is modelled as
arithmetic modulo 2^32 (the ESP32 is a 32-bit target).  The sensor reading is a
`float` in the source; its numeric value is irrelevant to every property here,
so it is modelled as an abstract integer carried through unchanged.
-/

namespace PT100Gateway

/-- 2^32: the modulus of `unsigned long` arithmetic on the 32-bit ESP32. -/
def UINT32_MOD : Nat := 4294967296

/-- Wrapping 32-bit subtraction, as in `now - lastTelemetryMillis` on
`unsigned long` values. -/
def sub32 (a b : Nat) : Nat :=
  (a % UINT32_MOD + (UINT32_MOD - b % UINT32_MOD)) % UINT32_MOD

/-- `TELEMETRY_INTERVAL_MS` (main.cpp line 106): 15 minutes. -/
def TELEMETRY_INTERVAL_MS : Nat := 900000

/-- `CONNECTION_CHECK_MS` (main.cpp line 107). -/
def CONNECTION_CHECK_MS : Nat := 1000

/-- `OTA_RETRY_LIMIT` (main.cpp line 56). -/
def OTA_RETRY_LIMIT : Nat := 24

/-- `OTA_PACKET_SIZE` (main.cpp line 57). -/
def OTA_PACKET_SIZE : Nat := 4096

/-- `FIRMWARE_VERSION` (main.cpp line 50). -/
def FIRMWARE_VERSION : String := "1.3.0"

/-- `firmwareTitle` as assigned in `setup()` (main.cpp lines 207-209) for the
compile-time selector `DEVICE_TYPE = DEVICE_TYPE_COLD_STORAGE`. -/
def firmwareTitle : String := "PT100_Cold_Storage"

/-- The mutable globals of `main.cpp` that the loop reads or writes:
`lastTelemetryMillis`, `lastConnectionCheckMillis` (line 103-104),
`sendInitialTelemetry` (line 109), `mqttConnected` (line 116) and
`temperatureCelsius` (line 115). -/
structure GatewayState where
  lastTelemetryMillis : Nat
  lastConnectionCheckMillis : Nat
  sendInitialTelemetry : Bool
  mqttConnected : Bool
  temperatureCelsius : Int
deriving DecidableEq, Repr

/-- The global state as it stands when `loop()` first runs: zero-initialised
timer marks, `sendInitialTelemetry = true`, `mqttConnected = false`. -/
def initialState : GatewayState :=
  { lastTelemetryMillis := 0
    lastConnectionCheckMillis := 0
    sendInitialTelemetry := true
    mqttConnected := false
    temperatureCelsius := 0 }

/-- The values the external collaborators return during one tick:
`millis()`, `WiFi.status() == WL_CONNECTED`, `thingsboard.connected()`,
the result of `thingsboard.connect(...)` (consulted only if the call is made),
and the `pt100.temperature(...)` reading (consulted only if the sensor is
read). -/
structure Env where
  now : Nat
  wifiUp : Bool
  tbConnected : Bool
  connectSuccess : Bool
  reading : Int
deriving DecidableEq, Repr

/-- Externally visible actions of one tick, in program order. -/
inductive Action where
  | ensureWifi
  | wifiReconnect
  | setMqttConnected (b : Bool)
  | connectAttempt
  | sendFirmwareInfo (title version : String)
  | sendFirmwareState (st : String)
  | subscribeFirmwareUpdate (retryLimit chunkSize : Nat)
  | readSensor (v : Int)
  | publishTelemetry (v : Int)
  | pollSession
  | logConnectionFailed
deriving DecidableEq, Repr

/-- `ensureWiFiConnection()` (main.cpp lines 158-165): if the link is down it
calls the blocking `connectWiFi()`, which spins until the link is up, so from
the loop's point of view it always returns with the link connected. -/
def ensureWiFiConnection (wifiUp : Bool) : List Action :=
  if wifiUp then [Action.ensureWifi] else [Action.ensureWifi, Action.wifiReconnect]

/-- The connectivity-check branch of `loop()` (main.cpp lines 222-253).
Returns the new state, the trace of actions performed, and whether the
iteration aborted via the early `return` on MQTT connect failure (line 231).
Note that on that early return `lastConnectionCheckMillis = now` (line 252) is
skipped. -/
def connectivityCheck (env : Env) (s : GatewayState) :
    GatewayState × List Action × Bool :=
  if sub32 env.now s.lastConnectionCheckMillis ≥ CONNECTION_CHECK_MS then
    let wifiTrace := ensureWiFiConnection env.wifiUp
    if env.tbConnected = true then
      ({ s with lastConnectionCheckMillis := env.now }, wifiTrace, false)
    else
      if env.connectSuccess = true then
        ({ s with mqttConnected := true, lastConnectionCheckMillis := env.now },
         wifiTrace ++
           [Action.setMqttConnected false, Action.connectAttempt,
            Action.setMqttConnected true,
            Action.sendFirmwareInfo firmwareTitle FIRMWARE_VERSION,
            Action.sendFirmwareState "UPDATED",
            Action.subscribeFirmwareUpdate OTA_RETRY_LIMIT OTA_PACKET_SIZE],
         false)
      else
        ({ s with mqttConnected := false },
         wifiTrace ++
           [Action.setMqttConnected false, Action.connectAttempt,
            Action.logConnectionFailed],
         true)
  else
    (s, [], false)

/-- The telemetry branch of `loop()` (main.cpp lines 255-271): fires when the
telemetry timer has expired or `sendInitialTelemetry` is set; always clears the
flag, reads the sensor and updates `lastTelemetryMillis`; publishes only when
`mqttConnected` is true. -/
def telemetryStep (env : Env) (s : GatewayState) : GatewayState × List Action :=
  if sub32 env.now s.lastTelemetryMillis ≥ TELEMETRY_INTERVAL_MS
      ∨ s.sendInitialTelemetry = true then
    let s1 := { s with sendInitialTelemetry := false
                       temperatureCelsius := env.reading
                       lastTelemetryMillis := env.now }
    if s.mqttConnected = true then
      (s1, [Action.readSensor env.reading, Action.publishTelemetry env.reading])
    else
      (s1, [Action.readSensor env.reading])
  else
    (s, [])

/-- One execution of the `loop()` body (main.cpp lines 219-274): connectivity
check, then (unless the connectivity branch returned early) the telemetry
branch and `thingsboard.loop()`. -/
def loopStep (env : Env) (s : GatewayState) : GatewayState × List Action :=
  let r := connectivityCheck env s
  if r.2.2 = true then (r.1, r.2.1)
  else
    let t := telemetryStep env r.1
    (t.1, r.2.1 ++ t.2 ++ [Action.pollSession])

/-- One invocation of `onOtaProgress` (main.cpp lines 180-187), tracking the
static throttle counter: `if (++counter >= 10) { emit; counter = 0; }`.
Returns the new counter value and whether the progress attribute was sent. -/
def otaProgressStep (counter : Nat) : Nat × Bool :=
  if counter + 1 ≥ 10 then (0, true) else (counter + 1, false)

/-- `n` successive invocations of `onOtaProgress` starting from counter `c`:
final counter value and total number of emissions. -/
def otaProgressRun : Nat → Nat → Nat × Nat
  | 0, c => (c, 0)
  | n + 1, c =>
      let r := otaProgressStep c
      let rest := otaProgressRun n r.1
      (rest.1, (if r.2 then 1 else 0) + rest.2)

/-- Terminal effects of the OTA completion callback. -/
inductive CompletionEffect where
  | restart
  | reportFailure
deriving DecidableEq, Repr

/-- `onOtaCompleted` (main.cpp lines 171-178): on success it calls
`esp_restart()` (which does not return); on failure it logs and returns.
It touches none of the orchestrator's globals. -/
def onOtaCompleted (success : Bool) (s : GatewayState) :
    GatewayState × List CompletionEffect :=
  if success then (s, [CompletionEffect.restart])
  else (s, [CompletionEffect.reportFailure])

/-! ## Supporting lemmas -/

/-- Running the progress callback `n` times from a counter value `c < 10`
ends with counter `(c + n) % 10` after `(c + n) / 10` emissions. -/
theorem otaProgressRun_eq (n : Nat) : ∀ c, c < 10 →
    otaProgressRun n c = ((c + n) % 10, (c + n) / 10) := by
  induction n with
  | zero =>
      intro c hc
      simp [otaProgressRun, Nat.mod_eq_of_lt hc, Nat.div_eq_of_lt hc]
  | succ n ih =>
      intro c hc
      by_cases h : c + 1 ≥ 10
      · have hc9 : c = 9 := by omega
        subst hc9
        simp only [otaProgressRun, otaProgressStep, if_pos h, ih 0 (by omega)]
        refine Prod.ext ?_ ?_ <;> simp <;> omega
      · simp only [otaProgressRun, otaProgressStep, if_neg h,
          ih (c + 1) (by omega)]
        refine Prod.ext ?_ ?_ <;> simp <;> omega

/-! ## Claims -/

/-- C4: starting from the initial counter state, `N` invocations of the
progress callback emit the progress attribute exactly `⌊N/10⌋` times; the
next (`N + 1`-st) invocation emits iff it is a multiple-of-10 invocation; and
whenever an invocation emits, the throttle counter is reset to zero. -/
theorem c4_progress_throttle (N c : Nat) :
    (otaProgressRun N 0).2 = N / 10 ∧
    ((otaProgressStep (otaProgressRun N 0).1).2 = true ↔ (N + 1) % 10 = 0) ∧
    ((otaProgressStep c).2 = true → (otaProgressStep c).1 = 0) := by
  have h := otaProgressRun_eq N 0 (by omega)
  refine ⟨by rw [h]; simp, ?_, ?_⟩
  · rw [h]
    by_cases h9 : N % 10 + 1 ≥ 10 <;>
      simp only [otaProgressStep, Nat.zero_add, if_pos, if_neg, h9] <;>
      simp [h9] <;> omega
  · by_cases hge : c + 1 ≥ 10 <;> simp [otaProgressStep, hge]

/-- Witness for C4: after 20 calls the attribute has been emitted twice, and
an emitting step (counter 9) resets the counter to zero. -/
theorem c4_progress_throttle_witness :
    (otaProgressRun 20 0).2 = 20 / 10 ∧ (otaProgressStep 9).1 = 0 :=
  ⟨(c4_progress_throttle 20 9).1,
   (c4_progress_throttle 20 9).2.2 (by decide)⟩

/-- C5: the completion callback restarts the device exactly when invoked with
`success = true`, reports failure exactly when invoked with `success = false`,
and leaves the orchestrator state unchanged in both cases. -/
theorem c5_completion_effects (success : Bool) (s : GatewayState) :
    (onOtaCompleted success s).1 = s ∧
    (onOtaCompleted success s).2 =
      (if success then [CompletionEffect.restart]
       else [CompletionEffect.reportFailure]) := by
  cases success <;> simp [onOtaCompleted]

/-- C1 counterexample: with both timer marks at 0 and `now = 1000`, the
connectivity guard `now - last ≥ 1000` holds and the session-establish attempt
is made, but the attempt fails, the iteration returns early, and the
connectivity timer's last-fired mark stays 0 instead of being set to `now`:
the claimed "mark is set to the current time unconditionally, even when the
action inside fails" is false for the connectivity timer. -/
theorem c1_counterexample :
    sub32 1000 0 ≥ CONNECTION_CHECK_MS ∧
    Action.connectAttempt ∈
      (loopStep ⟨1000, true, false, false, 0⟩ ⟨0, 0, false, false, 0⟩).2 ∧
    (loopStep ⟨1000, true, false, false, 0⟩
        ⟨0, 0, false, false, 0⟩).1.lastConnectionCheckMillis ≠ 1000 := by
  decide

/-- C1 (amended): the connectivity action runs iff `now - last ≥ 1000`
(32-bit wrap); the branch aborts the iteration exactly when the session is
down and the establish call fails, and the connectivity mark is set to `now`
exactly when the branch does not abort — on a failed establish the mark is
left unchanged, so the attempt can be retried on the very next iteration.
The telemetry branch, when reached, runs iff `now - last ≥ 900000` or the
immediate-send flag is set, and whenever it runs its mark is set to `now`
unconditionally, even when the publish is skipped. -/
theorem c1_amended (env : Env) (s : GatewayState) :
    ((connectivityCheck env s).2.1 ≠ [] ↔
       sub32 env.now s.lastConnectionCheckMillis ≥ CONNECTION_CHECK_MS) ∧
    ((connectivityCheck env s).2.2 = true ↔
       (sub32 env.now s.lastConnectionCheckMillis ≥ CONNECTION_CHECK_MS ∧
        env.tbConnected = false ∧ env.connectSuccess = false)) ∧
    (sub32 env.now s.lastConnectionCheckMillis ≥ CONNECTION_CHECK_MS →
       ((connectivityCheck env s).2.2 = false →
          (connectivityCheck env s).1.lastConnectionCheckMillis = env.now) ∧
       ((connectivityCheck env s).2.2 = true →
          (connectivityCheck env s).1.lastConnectionCheckMillis =
            s.lastConnectionCheckMillis)) ∧
    ((telemetryStep env s).2 ≠ [] ↔
       (sub32 env.now s.lastTelemetryMillis ≥ TELEMETRY_INTERVAL_MS ∨
        s.sendInitialTelemetry = true)) ∧
    ((telemetryStep env s).2 ≠ [] →
       (telemetryStep env s).1.lastTelemetryMillis = env.now) := by
  refine ⟨?_, ?_, ?_, ?_, ?_⟩
  · by_cases hg : sub32 env.now s.lastConnectionCheckMillis ≥ CONNECTION_CHECK_MS <;>
    cases htb : env.tbConnected <;> cases hcs : env.connectSuccess <;>
    cases hw : env.wifiUp <;>
    simp [connectivityCheck, ensureWiFiConnection, hg, htb, hcs, hw]
  · by_cases hg : sub32 env.now s.lastConnectionCheckMillis ≥ CONNECTION_CHECK_MS <;>
    cases htb : env.tbConnected <;> cases hcs : env.connectSuccess <;>
    cases hw : env.wifiUp <;>
    simp [connectivityCheck, ensureWiFiConnection, hg, htb, hcs, hw]
  · intro hg
    cases htb : env.tbConnected <;> cases hcs : env.connectSuccess <;>
    cases hw : env.wifiUp <;>
    simp [connectivityCheck, ensureWiFiConnection, hg, htb, hcs, hw]
  · by_cases hgt : sub32 env.now s.lastTelemetryMillis ≥ TELEMETRY_INTERVAL_MS <;>
    cases hsi : s.sendInitialTelemetry <;> cases hmc : s.mqttConnected <;>
    simp [telemetryStep, hgt, hsi, hmc]
  · by_cases hgt : sub32 env.now s.lastTelemetryMillis ≥ TELEMETRY_INTERVAL_MS <;>
    cases hsi : s.sendInitialTelemetry <;> cases hmc : s.mqttConnected <;>
    simp [telemetryStep, hgt, hsi, hmc]

/-- Witness for C1 (amended): at `now = 1000` with the session already
connected, the guard holds, the branch does not abort, and the connectivity
mark is set to 1000. -/
theorem c1_amended_witness :
    (connectivityCheck ⟨1000, true, true, true, 0⟩
        ⟨0, 0, false, false, 0⟩).1.lastConnectionCheckMillis = 1000 :=
  ((c1_amended ⟨1000, true, true, true, 0⟩ ⟨0, 0, false, false, 0⟩).2.2.1
      (by decide)).1 (by decide)

/-- C2: whenever a telemetry publish happens in a tick it carries exactly the
sample read in that same tick (never an older one), and on any tick where the
telemetry branch runs (the sensor is read), the publish happens iff the
`mqttConnected` flag — as left by the connectivity branch of that same tick —
is true. -/
theorem c2_publish_iff_flag (env : Env) (s : GatewayState) :
    (∀ v, Action.publishTelemetry v ∈ (loopStep env s).2 → v = env.reading) ∧
    (Action.readSensor env.reading ∈ (loopStep env s).2 →
       (Action.publishTelemetry env.reading ∈ (loopStep env s).2 ↔
        (connectivityCheck env s).1.mqttConnected = true)) := by
  by_cases hg : sub32 env.now s.lastConnectionCheckMillis ≥ CONNECTION_CHECK_MS <;>
  by_cases hgt : sub32 env.now s.lastTelemetryMillis ≥ TELEMETRY_INTERVAL_MS <;>
  cases htb : env.tbConnected <;> cases hcs : env.connectSuccess <;>
  cases hsi : s.sendInitialTelemetry <;> cases hw : env.wifiUp <;>
  cases hmc : s.mqttConnected <;>
  simp [loopStep, connectivityCheck, telemetryStep, ensureWiFiConnection,
    hg, hgt, htb, hcs, hsi, hw, hmc]

/-- Witness for C2: with the session flag true and the immediate-send flag
set, the tick publishes the sample (7) read in that tick. -/
theorem c2_publish_iff_flag_witness :
    Action.publishTelemetry 7 ∈
      (loopStep ⟨0, true, true, true, 7⟩ ⟨0, 0, true, true, 0⟩).2 :=
  ((c2_publish_iff_flag ⟨0, true, true, true, 7⟩ ⟨0, 0, true, true, 0⟩).2
      (by decide)).mpr (by decide)

/-- C3 counterexample: on a tick where the connectivity guard holds, the
session is down and the establish call fails, the early `return` skips
`thingsboard.loop()`: the session poll is not invoked on that tick, refuting
"poll is invoked on every execution of the loop body". -/
theorem c3_counterexample :
    Action.pollSession ∉
      (loopStep ⟨2000, true, false, false, 5⟩ ⟨0, 0, false, false, 0⟩).2 := by
  decide

/-- C3 (amended): the session poll runs on every execution of the loop body —
regardless of the telemetry branch's outcome — except exactly on those ticks
where the connectivity guard holds, the session is down and the establish
call fails, in which case the early return skips it. -/
theorem c3_poll_unless_connect_fails (env : Env) (s : GatewayState) :
    Action.pollSession ∈ (loopStep env s).2 ↔
      ¬ (sub32 env.now s.lastConnectionCheckMillis ≥ CONNECTION_CHECK_MS ∧
         env.tbConnected = false ∧ env.connectSuccess = false) := by
  by_cases hg : sub32 env.now s.lastConnectionCheckMillis ≥ CONNECTION_CHECK_MS <;>
  by_cases hgt : sub32 env.now s.lastTelemetryMillis ≥ TELEMETRY_INTERVAL_MS <;>
  cases htb : env.tbConnected <;> cases hcs : env.connectSuccess <;>
  cases hsi : s.sendInitialTelemetry <;> cases hw : env.wifiUp <;>
  cases hmc : s.mqttConnected <;>
  simp [loopStep, connectivityCheck, telemetryStep, ensureWiFiConnection,
    hg, hgt, htb, hcs, hsi, hw, hmc]

/-- Witness for C3 (amended): on a quiet tick (no guard fired) the poll runs. -/
theorem c3_poll_witness :
    Action.pollSession ∈ (loopStep ⟨0, true, true, true, 0⟩ initialState).2 :=
  (c3_poll_unless_connect_fails ⟨0, true, true, true, 0⟩ initialState).mpr
    (by decide)

/-- C6: on a tick where the connectivity guard holds, the session is down and
the establish call succeeds, the branch performs — in program order — the
flag-set to true, the firmware info send, the firmware state send, and the
update-subscription arming with the OTA callbacks' retry limit 24 and chunk
size 4096; the subscription is armed exactly once on such a tick, and never
on a failed attempt, an already-connected tick, or a tick where the guard
does not hold. -/
theorem c6_arm_subscription_once (env : Env) (s : GatewayState) :
    (sub32 env.now s.lastConnectionCheckMillis ≥ CONNECTION_CHECK_MS →
     env.tbConnected = false → env.connectSuccess = true →
       (connectivityCheck env s).2.1 =
         ensureWiFiConnection env.wifiUp ++
           [Action.setMqttConnected false, Action.connectAttempt,
            Action.setMqttConnected true,
            Action.sendFirmwareInfo firmwareTitle FIRMWARE_VERSION,
            Action.sendFirmwareState "UPDATED",
            Action.subscribeFirmwareUpdate OTA_RETRY_LIMIT OTA_PACKET_SIZE] ∧
       (connectivityCheck env s).1.mqttConnected = true ∧
       (connectivityCheck env s).2.1.count
           (Action.subscribeFirmwareUpdate OTA_RETRY_LIMIT OTA_PACKET_SIZE) = 1) ∧
    ((env.tbConnected = true ∨ env.connectSuccess = false ∨
        ¬ sub32 env.now s.lastConnectionCheckMillis ≥ CONNECTION_CHECK_MS) →
       ∀ r k, Action.subscribeFirmwareUpdate r k ∉ (connectivityCheck env s).2.1) := by
  by_cases hg : sub32 env.now s.lastConnectionCheckMillis ≥ CONNECTION_CHECK_MS <;>
  cases htb : env.tbConnected <;> cases hcs : env.connectSuccess <;>
  cases hw : env.wifiUp <;>
  simp [connectivityCheck, ensureWiFiConnection, hg, htb, hcs, hw]

/-- Witness for C6: a successful establish on a link-up tick arms the
subscription exactly once. -/
theorem c6_arm_subscription_once_witness :
    (connectivityCheck ⟨1000, true, false, true, 0⟩
        ⟨0, 0, false, false, 0⟩).2.1.count
      (Action.subscribeFirmwareUpdate OTA_RETRY_LIMIT OTA_PACKET_SIZE) = 1 :=
  ((c6_arm_subscription_once ⟨1000, true, false, true, 0⟩
      ⟨0, 0, false, false, 0⟩).1 (by decide) rfl rfl).2.2

/-- C7: the immediate-send flag is seeded true at boot; while it is true the
telemetry branch runs regardless of the telemetry timer, and running clears
the flag; no part of the loop ever sets the flag back to true; and once the
flag is false the branch runs exactly when the full period has elapsed. -/
theorem c7_immediate_send_seed (env : Env) (s : GatewayState) :
    initialState.sendInitialTelemetry = true ∧
    (s.sendInitialTelemetry = true →
       (telemetryStep env s).2 ≠ [] ∧
       (telemetryStep env s).1.sendInitialTelemetry = false) ∧
    ((loopStep env s).1.sendInitialTelemetry = true →
       s.sendInitialTelemetry = true) ∧
    (s.sendInitialTelemetry = false →
       ((telemetryStep env s).2 ≠ [] ↔
          sub32 env.now s.lastTelemetryMillis ≥ TELEMETRY_INTERVAL_MS)) := by
  refine ⟨rfl, ?_, ?_, ?_⟩
  · intro hsi
    by_cases hgt : sub32 env.now s.lastTelemetryMillis ≥ TELEMETRY_INTERVAL_MS <;>
    cases hmc : s.mqttConnected <;>
    simp [telemetryStep, hsi, hgt, hmc]
  · by_cases hg : sub32 env.now s.lastConnectionCheckMillis ≥ CONNECTION_CHECK_MS <;>
    by_cases hgt : sub32 env.now s.lastTelemetryMillis ≥ TELEMETRY_INTERVAL_MS <;>
    cases htb : env.tbConnected <;> cases hcs : env.connectSuccess <;>
    cases hsi : s.sendInitialTelemetry <;> cases hw : env.wifiUp <;>
    cases hmc : s.mqttConnected <;>
    simp [loopStep, connectivityCheck, telemetryStep, ensureWiFiConnection,
      hg, hgt, htb, hcs, hsi, hw, hmc]
  · intro hsi
    by_cases hgt : sub32 env.now s.lastTelemetryMillis ≥ TELEMETRY_INTERVAL_MS <;>
    cases hmc : s.mqttConnected <;>
    simp [telemetryStep, hsi, hgt, hmc]

/-- Witness for C7: at boot (`now = 0`, so the 15-minute period is nowhere
near elapsed) the telemetry branch still runs and the flag comes out false. -/
theorem c7_immediate_send_seed_witness :
    (telemetryStep ⟨0, true, true, true, 3⟩ initialState).2 ≠ [] ∧
    (telemetryStep ⟨0, true, true, true, 3⟩
        initialState).1.sendInitialTelemetry = false :=
  (c7_immediate_send_seed ⟨0, true, true, true, 3⟩ initialState).2.1 rfl

/-- C8: when the connectivity guard fires on a tick with the link up and the
session already reporting connected, no session-establish call (and no send or
subscription) happens — the trace is only the WiFi status check — and the only
state change is the connectivity mark; `mqttConnected` is untouched. -/
theorem c8_idempotent_when_connected (env : Env) (s : GatewayState)
    (hg : sub32 env.now s.lastConnectionCheckMillis ≥ CONNECTION_CHECK_MS)
    (hw : env.wifiUp = true) (ht : env.tbConnected = true) :
    (connectivityCheck env s).1 =
      { s with lastConnectionCheckMillis := env.now } ∧
    (connectivityCheck env s).2.1 = [Action.ensureWifi] ∧
    (connectivityCheck env s).2.2 = false := by
  simp [connectivityCheck, ensureWiFiConnection, hg, hw, ht]

/-- Witness for C8: a concrete already-connected tick performs only the WiFi
status check. -/
theorem c8_idempotent_when_connected_witness :
    (connectivityCheck ⟨1000, true, true, true, 0⟩
        ⟨0, 0, false, true, 0⟩).2.1 = [Action.ensureWifi] :=
  (c8_idempotent_when_connected ⟨1000, true, true, true, 0⟩
      ⟨0, 0, false, true, 0⟩ (by decide) rfl rfl).2.1

/-- C9: `mqttConnected` starts false at its declaration and is written only by
the connectivity branch: the telemetry branch and the OTA completion callback
leave it unchanged, and the value after a whole loop iteration is exactly the
value the connectivity branch left. -/
theorem c9_flag_single_writer (env : Env) (s : GatewayState) (b : Bool) :
    initialState.mqttConnected = false ∧
    (telemetryStep env s).1.mqttConnected = s.mqttConnected ∧
    (onOtaCompleted b s).1.mqttConnected = s.mqttConnected ∧
    (loopStep env s).1.mqttConnected = (connectivityCheck env s).1.mqttConnected := by
  refine ⟨rfl, ?_, ?_, ?_⟩
  · by_cases hgt : sub32 env.now s.lastTelemetryMillis ≥ TELEMETRY_INTERVAL_MS <;>
    cases hsi : s.sendInitialTelemetry <;> cases hmc : s.mqttConnected <;>
    simp [telemetryStep, hgt, hsi, hmc]
  · cases b <;> simp [onOtaCompleted]
  · by_cases hg : sub32 env.now s.lastConnectionCheckMillis ≥ CONNECTION_CHECK_MS <;>
    by_cases hgt : sub32 env.now s.lastTelemetryMillis ≥ TELEMETRY_INTERVAL_MS <;>
    cases htb : env.tbConnected <;> cases hcs : env.connectSuccess <;>
    cases hsi : s.sendInitialTelemetry <;> cases hw : env.wifiUp <;>
    cases hmc : s.mqttConnected <;>
    simp [loopStep, connectivityCheck, telemetryStep, ensureWiFiConnection,
      hg, hgt, htb, hcs, hsi, hw, hmc]

/-- C10: on a tick where the connectivity guard holds, the session is down and
the establish call fails, the early return prevents the telemetry branch
entirely — no sensor read, no publish, and `sendInitialTelemetry`,
`lastTelemetryMillis`, `lastConnectionCheckMillis` and `temperatureCelsius`
are all left unchanged — even when the telemetry timer has expired or the
immediate-send flag is set. -/
theorem c10_abort_frames_telemetry (env : Env) (s : GatewayState)
    (hg : sub32 env.now s.lastConnectionCheckMillis ≥ CONNECTION_CHECK_MS)
    (ht : env.tbConnected = false) (hc : env.connectSuccess = false) :
    (loopStep env s).1.sendInitialTelemetry = s.sendInitialTelemetry ∧
    (loopStep env s).1.lastTelemetryMillis = s.lastTelemetryMillis ∧
    (loopStep env s).1.lastConnectionCheckMillis = s.lastConnectionCheckMillis ∧
    (loopStep env s).1.temperatureCelsius = s.temperatureCelsius ∧
    (∀ v, Action.readSensor v ∉ (loopStep env s).2) ∧
    (∀ v, Action.publishTelemetry v ∉ (loopStep env s).2) := by
  cases hw : env.wifiUp <;>
  simp [loopStep, connectivityCheck, ensureWiFiConnection, hg, ht, hc, hw]

/-- Witness for C10: with the telemetry timer long expired and the
immediate-send flag set, a failed establish still leaves the telemetry mark
untouched and reads no sample. -/
theorem c10_abort_frames_telemetry_witness :
    (loopStep ⟨1000000, true, false, false, 0⟩
        ⟨0, 0, true, false, 0⟩).1.lastTelemetryMillis = 0 ∧
    Action.readSensor 0 ∉
      (loopStep ⟨1000000, true, false, false, 0⟩ ⟨0, 0, true, false, 0⟩).2 :=
  ⟨(c10_abort_frames_telemetry ⟨1000000, true, false, false, 0⟩
      ⟨0, 0, true, false, 0⟩ (by decide) rfl rfl).2.1,
   (c10_abort_frames_telemetry ⟨1000000, true, false, false, 0⟩
      ⟨0, 0, true, false, 0⟩ (by decide) rfl rfl).2.2.2.2.1 0⟩

end PT100Gateway
